import Mathlib

/-!
Shallow embedding of the process/thread lifecycle core of the repository
(`src/libs/core/src/General/Thread.cpp`, `src/libs/core/src/General/Process.cpp`
and their headers).  Kernel handles are modelled by an inductive `HANDLE` with
the two Win32 sentinels; the operating system is an oracle record `OS` whose
fields stand for the Win32 calls the wrappers make; resource effects
(`CloseHandle`, `WaitForSingleObject`) are recorded in an explicit event trace.
Machine integers (`DWORD`) are `Nat` with explicit reduction modulo `2^32`
where the source casts; `milliseconds::count()` (a signed 64-bit value in the
source) is an `Int`.
-/

/-- A Win32 `HANDLE`: the null pointer, the dedicated `INVALID_HANDLE_VALUE`
sentinel, or a genuine handle value. -/
inductive HANDLE where
  | nullptr
  | INVALID_HANDLE_VALUE
  | ptr (n : Nat)
deriving DecidableEq, Repr

/-- Win32 `INFINITE` (`0xFFFFFFFF`), the infinite-wait sentinel of
`WaitForSingleObject`. -/
def INFINITE : Nat := 4294967295

/-- Win32 `STILL_ACTIVE` (= 259), the "not yet terminated" exit-code
sentinel of `GetExitCodeThread` / `GetExitCodeProcess`. -/
def STILL_ACTIVE : Nat := 259

/-- `static_cast<DWORD>` of a signed 64-bit count: reduction modulo `2^32`. -/
def toDWORD (x : Int) : Nat := (x % 4294967296).toNat

/-- `core::General::wait_status` is `enum class wait_status : DWORD`; the
source converts the raw `DWORD` result of `WaitForSingleObject` to it with
`static_cast`, so the embedding keeps the raw value. -/
structure wait_status where
  val : Nat
deriving DecidableEq, Repr

namespace wait_status

/-- `wait_status::signaled = WAIT_OBJECT_0`. -/
def signaled : wait_status := ⟨0⟩

/-- `wait_status::timeout = WAIT_TIMEOUT` (`0x102`). -/
def timeout : wait_status := ⟨258⟩

/-- `wait_status::failed = WAIT_FAILED` (`0xFFFFFFFF`). -/
def failed : wait_status := ⟨4294967295⟩

/-- `wait_status::abandoned = WAIT_ABANDONED` (`0x80`). -/
def abandoned : wait_status := ⟨128⟩

end wait_status

/-- `std::chrono::milliseconds`, represented by its `count()`. -/
structure milliseconds where
  count : Int
deriving DecidableEq, Repr

/-- An observable resource effect of a wrapper operation. -/
inductive Event where
  | closeHandle (h : HANDLE)
  | waitForSingleObject (h : HANDLE) (ms : Nat)
deriving DecidableEq, Repr

/-- The operating-system oracle: one field per Win32 call the wrappers
consult.  `getExitCodeThread`/`getExitCodeProcess` return `none` when the
call itself fails and `some code` for the reported exit code (a target that
is still running reports `STILL_ACTIVE`). -/
structure OS where
  getThreadId : HANDLE → Nat
  getProcessId : HANDLE → Nat
  getExitCodeThread : HANDLE → Option Nat
  getExitCodeProcess : HANDLE → Option Nat
  waitForSingleObject : HANDLE → Nat → Nat
  terminateThread : HANDLE → Nat → Nat
  terminateProcess : HANDLE → Nat → Nat
  suspendThread : HANDLE → Nat
  resumeThread : HANDLE → Nat
  setThreadPriority : HANDLE → Nat → Nat
  getThreadPriority : HANDLE → Int
  setThreadAffinityMask : HANDLE → Nat → Nat
  setPriorityClass : HANDLE → Nat → Nat
  getPriorityClass : HANDLE → Nat

/-- `Thread::is_valid_handle` and `Process::is_valid_handle` (identical
bodies): `h != nullptr && h != INVALID_HANDLE_VALUE`. -/
def is_valid_handle : HANDLE → Bool
  | HANDLE.nullptr => false
  | HANDLE.INVALID_HANDLE_VALUE => false
  | HANDLE.ptr _ => true

/-- `Thread::close_handle_` and `Process::close_handle_` (identical bodies):
`if (is_valid_handle(h)) CloseHandle(h);` — returns the emitted close
events. -/
def close_handle_ (h : HANDLE) : List Event :=
  if is_valid_handle h then [Event.closeHandle h] else []

/-- The `ms` argument of the single `WaitForSingleObject` call of a trace,
if the trace is exactly one wait call. -/
def waited_ms (es : List Event) : Option Nat :=
  match es with
  | [Event.waitForSingleObject _ ms] => some ms
  | _ => none

/-- Whether a trace closes only handles that satisfy `is_valid_handle`. -/
def closes_ok (es : List Event) : Bool :=
  es.all fun e =>
    match e with
    | Event.closeHandle h => is_valid_handle h
    | Event.waitForSingleObject _ _ => true

/-- State of `core::General::Thread`: the owned handle and the cached id. -/
structure Thread where
  hThread_ : HANDLE
  tid_ : Nat
deriving DecidableEq, Repr

namespace Thread

/-- `Thread.h`: `ERROR_STATUS = static_cast<DWORD>(-1)`. -/
def ERROR_STATUS : Nat := 4294967294 + 1

/-- Win32 `THREAD_PRIORITY_ERROR_RETURN` (= `MAXLONG`). -/
def THREAD_PRIORITY_ERROR_RETURN : Int := 2147483647

/-- `Thread::set_zero_()`: `hThread_ = nullptr; tid_ = 0;`. -/
def set_zero_ (_t : Thread) : Thread := ⟨HANDLE.nullptr, 0⟩

/-- `Thread::Thread()`: `hThread_(nullptr), tid_(0)`. -/
def empty : Thread := ⟨HANDLE.nullptr, 0⟩

/-- `Thread::valid()`: `is_valid_handle(hThread_)`. -/
def valid (t : Thread) : Bool := is_valid_handle t.hThread_

/-- `Thread::joinable()`: alias of `valid()`. -/
def joinable (t : Thread) : Bool := t.valid

/-- `Thread::get_id()`: the cached `tid_`. -/
def get_id (t : Thread) : Nat := t.tid_

/-- `Thread::handle()`: the raw handle. -/
def handle (t : Thread) : HANDLE := t.hThread_

/-- `Thread::release()`: hand the raw handle out and zero the state without
closing anything. -/
def release (t : Thread) : HANDLE × Thread := (t.hThread_, t.set_zero_)

/-- `Thread::reset()`: `close_handle_(hThread_); set_zero_();`. -/
def reset (t : Thread) : Thread × List Event :=
  (t.set_zero_, close_handle_ t.hThread_)

/-- `Thread::initialize_()`: resolve a missing id from the handle; on
id-resolution failure fall back to `reset()`; on an invalid handle zero the
fields. -/
def initialize_ (os : OS) (t : Thread) : Thread × List Event :=
  if is_valid_handle t.hThread_ then
    let t1 : Thread := if t.tid_ = 0 then { t with tid_ := os.getThreadId t.hThread_ } else t
    if t1.tid_ = 0 then t1.reset else (t1, [])
  else
    (t.set_zero_, [])

/-- `Thread::reset(HANDLE, DWORD)`: `reset()` then adopt the new pair and run
`initialize_()`. -/
def reset2 (os : OS) (t : Thread) (thread_handle : HANDLE) (thread_id : Nat) :
    Thread × List Event :=
  let r1 := t.reset
  let r2 := initialize_ os ⟨thread_handle, thread_id⟩
  (r2.1, r1.2 ++ r2.2)

/-- `Thread::Thread(Thread&&)`: the new object takes the fields, the source is
zeroed; no handle is closed. -/
def move_ctor (other : Thread) : Thread × Thread :=
  (⟨other.hThread_, other.tid_⟩, other.set_zero_)

/-- `Thread::operator=(Thread&&)` for distinct objects: `reset()` the
destination, take the fields, zero the source. -/
def move_assign (t other : Thread) : Thread × Thread × List Event :=
  let r := t.reset
  (⟨other.hThread_, other.tid_⟩, other.set_zero_, r.2)

/-- `Thread::swap`: exchange both fields. -/
def swap (t other : Thread) : Thread × Thread :=
  (⟨other.hThread_, other.tid_⟩, ⟨t.hThread_, t.tid_⟩)

/-- `Thread::join()`: if valid, `WaitForSingleObject(hThread_, INFINITE)` then
`reset()`. -/
def join (os : OS) (t : Thread) : Thread × List Event :=
  if t.valid then
    let r := t.reset
    (r.1, Event.waitForSingleObject t.hThread_ INFINITE :: r.2)
  else (t, [])

/-- `Thread::detach()`: the body is exactly `reset();`. -/
def detach (t : Thread) : Thread × List Event := t.reset

/-- `Thread::try_exit_code()`: `nullopt` when invalid, when
`GetExitCodeThread` fails, or when the reported code is `STILL_ACTIVE`. -/
def try_exit_code (os : OS) (t : Thread) : Option Nat :=
  if !t.valid then none
  else
    match os.getExitCodeThread t.hThread_ with
    | some exitCode => if exitCode = STILL_ACTIVE then none else some exitCode
    | none => none

/-- `Thread::is_running()`: `false` when invalid or the probe fails, else
whether the reported code is `STILL_ACTIVE`. -/
def is_running (os : OS) (t : Thread) : Bool :=
  if !t.valid then false
  else
    match os.getExitCodeThread t.hThread_ with
    | some exitCode => decide (exitCode = STILL_ACTIVE)
    | none => false

/-- `Thread::terminate(UINT)`: `TerminateThread(hThread_, code) != 0` when
valid, else `false`; the fields are untouched. -/
def terminate (os : OS) (t : Thread) (exit_code : Nat) : Bool × Thread :=
  if t.valid then (decide (os.terminateThread t.hThread_ exit_code ≠ 0), t)
  else (false, t)

/-- `Thread::suspend()`: `SuspendThread(hThread_) != (DWORD)-1` when valid. -/
def suspend (os : OS) (t : Thread) : Bool × Thread :=
  if t.valid then (decide (os.suspendThread t.hThread_ ≠ ERROR_STATUS), t)
  else (false, t)

/-- `Thread::resume()`: `ResumeThread(hThread_) != (DWORD)-1` when valid. -/
def resume (os : OS) (t : Thread) : Bool × Thread :=
  if t.valid then (decide (os.resumeThread t.hThread_ ≠ ERROR_STATUS), t)
  else (false, t)

/-- `Thread::wait()`: `WaitForSingleObject(hThread_, INFINITE)` when valid,
else `wait_status::failed` with no OS call. -/
def wait (os : OS) (t : Thread) : wait_status × List Event :=
  if t.valid then
    (⟨os.waitForSingleObject t.hThread_ INFINITE⟩,
     [Event.waitForSingleObject t.hThread_ INFINITE])
  else (wait_status.failed, [])

/-- `Thread::wait_for(milliseconds)`: when valid,
`DWORD ms = (ms_count >= INFINITE) ? (INFINITE - 1) : static_cast<DWORD>(ms_count);`
then `WaitForSingleObject(hThread_, ms)`. -/
def wait_for (os : OS) (t : Thread) (timeout : milliseconds) :
    wait_status × List Event :=
  if t.valid then
    let ms_count := timeout.count
    let ms : Nat := if (INFINITE : Int) ≤ ms_count then INFINITE - 1 else toDWORD ms_count
    (⟨os.waitForSingleObject t.hThread_ ms⟩,
     [Event.waitForSingleObject t.hThread_ ms])
  else (wait_status.failed, [])

/-- `Thread::set_priority(DWORD)`: `SetThreadPriority(...) != 0` when valid. -/
def set_priority (os : OS) (t : Thread) (priority : Nat) : Bool × Thread :=
  if t.valid then (decide (os.setThreadPriority t.hThread_ priority ≠ 0), t)
  else (false, t)

/-- `Thread::get_priority()`: the priority cast to `DWORD` when valid and not
`THREAD_PRIORITY_ERROR_RETURN`, else `0`. -/
def get_priority (os : OS) (t : Thread) : Nat :=
  if t.valid then
    let p := os.getThreadPriority t.hThread_
    if p ≠ THREAD_PRIORITY_ERROR_RETURN then toDWORD p else 0
  else 0

/-- `Thread::set_affinity(DWORD_PTR)`: the previous mask from
`SetThreadAffinityMask` when valid, else `0`. -/
def set_affinity (os : OS) (t : Thread) (mask : Nat) : Nat × Thread :=
  if t.valid then (os.setThreadAffinityMask t.hThread_ mask, t)
  else (0, t)

end Thread

/-- State of `core::General::Process`: the jointly owned process/thread handle
pair and the two cached identifiers. -/
structure Process where
  hProcess_ : HANDLE
  hThread_ : HANDLE
  pid_ : Nat
  tid_ : Nat
deriving DecidableEq, Repr

/-- Win32 `PROCESS_INFORMATION`, the four-field result of `CreateProcessW`. -/
structure PROCESS_INFORMATION where
  hProcess : HANDLE
  hThread : HANDLE
  dwProcessId : Nat
  dwThreadId : Nat
deriving DecidableEq, Repr

namespace Process

/-- `Process.h`: `INVALID_ID = 0`. -/
def INVALID_ID : Nat := 0

/-- `Process.h`: `THREAD_ERROR_STATUS = static_cast<DWORD>(-1)`. -/
def THREAD_ERROR_STATUS : Nat := 4294967294 + 1

/-- `Process.h`: `MAX_WAIT_TIMEOUT = INFINITE - 1`. -/
def MAX_WAIT_TIMEOUT : Nat := INFINITE - 1

/-- `Process::set_zero_()`: nullify all four fields without closing. -/
def set_zero_ (_p : Process) : Process := ⟨HANDLE.nullptr, HANDLE.nullptr, 0, 0⟩

/-- `Process::Process()`: `hProcess_(nullptr), hThread_(nullptr), pid_(0), tid_(0)`. -/
def empty : Process := ⟨HANDLE.nullptr, HANDLE.nullptr, 0, 0⟩

/-- `Process::valid()`: `is_valid_handle(hProcess_)` — the process handle only. -/
def valid (p : Process) : Bool := is_valid_handle p.hProcess_

/-- `Process::reset()`: close the thread handle, then the process handle, then
zero the fields. -/
def reset (p : Process) : Process × List Event :=
  (p.set_zero_, close_handle_ p.hThread_ ++ close_handle_ p.hProcess_)

/-- `Process::initialize_()`: when both handles are non-null, re-resolve
`pid_` from `GetProcessId` and `tid_` from `GetThreadId`, calling `reset()` on
either resolution failing; otherwise `reset()`. -/
def initialize_ (os : OS) (p : Process) : Process × List Event :=
  if p.hProcess_ ≠ HANDLE.nullptr ∧ p.hThread_ ≠ HANDLE.nullptr then
    let p1 : Process := { p with pid_ := os.getProcessId p.hProcess_ }
    if p1.pid_ = INVALID_ID then p1.reset
    else
      let p2 : Process := { p1 with tid_ := os.getThreadId p1.hThread_ }
      if p2.tid_ = INVALID_ID then p2.reset
      else (p2, [])
  else p.reset

/-- `Process::Process(HANDLE, HANDLE, DWORD, DWORD)`: store the four fields
then run `initialize_()`. -/
def ctor4 (os : OS) (process_handle thread_handle : HANDLE) (pid tid : Nat) :
    Process × List Event :=
  initialize_ os ⟨process_handle, thread_handle, pid, tid⟩

/-- `Process::Process(const PROCESS_INFORMATION&)`: store the four fields of
the record then run `initialize_()`. -/
def ctor_pi (os : OS) (pi : PROCESS_INFORMATION) : Process × List Event :=
  initialize_ os ⟨pi.hProcess, pi.hThread, pi.dwProcessId, pi.dwThreadId⟩

/-- `Process::release()`: hand both handles out as a pair and zero the state
without closing. -/
def release (p : Process) : (HANDLE × HANDLE) × Process :=
  ((p.hProcess_, p.hThread_), p.set_zero_)

/-- `Process::reset(HANDLE, HANDLE, DWORD, DWORD)`: `reset()` then adopt the
four fields and run `initialize_()`. -/
def reset4 (os : OS) (p : Process) (process_handle thread_handle : HANDLE)
    (pid tid : Nat) : Process × List Event :=
  let r1 := p.reset
  let r2 := initialize_ os ⟨process_handle, thread_handle, pid, tid⟩
  (r2.1, r1.2 ++ r2.2)

/-- `Process::Process(Process&&)`: the new object takes the four fields, the
source is zeroed; no handle is closed. -/
def move_ctor (other : Process) : Process × Process :=
  (⟨other.hProcess_, other.hThread_, other.pid_, other.tid_⟩, other.set_zero_)

/-- `Process::operator=(Process&&)` for distinct objects: `reset()` the
destination, take the four fields, zero the source. -/
def move_assign (p other : Process) : Process × Process × List Event :=
  let r := p.reset
  (⟨other.hProcess_, other.hThread_, other.pid_, other.tid_⟩, other.set_zero_, r.2)

/-- `Process::swap`: exchange all four fields. -/
def swap (p other : Process) : Process × Process :=
  (⟨other.hProcess_, other.hThread_, other.pid_, other.tid_⟩,
   ⟨p.hProcess_, p.hThread_, p.pid_, p.tid_⟩)

/-- `Process::wait()`: `WaitForSingleObject(hProcess_, INFINITE)` when valid,
else `wait_status::failed`. -/
def wait (os : OS) (p : Process) : wait_status × List Event :=
  if p.valid then
    (⟨os.waitForSingleObject p.hProcess_ INFINITE⟩,
     [Event.waitForSingleObject p.hProcess_ INFINITE])
  else (wait_status.failed, [])

/-- `Process::wait_for(milliseconds)`: when valid,
`DWORD ms = static_cast<DWORD>(timeout.count()); if (MAX_WAIT_TIMEOUT < ms) ms = MAX_WAIT_TIMEOUT;`
then `WaitForSingleObject(hProcess_, ms)`. -/
def wait_for (os : OS) (p : Process) (timeout : milliseconds) :
    wait_status × List Event :=
  if p.valid then
    let ms0 : Nat := toDWORD timeout.count
    let ms : Nat := if MAX_WAIT_TIMEOUT < ms0 then MAX_WAIT_TIMEOUT else ms0
    (⟨os.waitForSingleObject p.hProcess_ ms⟩,
     [Event.waitForSingleObject p.hProcess_ ms])
  else (wait_status.failed, [])

/-- `Process::try_exit_code()`: the reported code when valid, the probe
succeeds and the code is not `STILL_ACTIVE`; `nullopt` otherwise. -/
def try_exit_code (os : OS) (p : Process) : Option Nat :=
  if p.valid then
    match os.getExitCodeProcess p.hProcess_ with
    | some exitCode => if exitCode ≠ STILL_ACTIVE then some exitCode else none
    | none => none
  else none

/-- `Process::is_running()`: literally `!(try_exit_code().has_value())`. -/
def is_running (os : OS) (p : Process) : Bool :=
  !(p.try_exit_code os).isSome

/-- `Process::terminate(UINT)`: `TerminateProcess(hProcess_, code)` when
valid, else `false`; the fields are untouched. -/
def terminate (os : OS) (p : Process) (exit_code : Nat) : Bool × Process :=
  if p.valid then (decide (os.terminateProcess p.hProcess_ exit_code ≠ 0), p)
  else (false, p)

/-- `Process::set_priority_class(DWORD)`: `SetPriorityClass(hProcess_, pc)`
when valid, else `false`. -/
def set_priority_class (os : OS) (p : Process) (priority_class : Nat) :
    Bool × Process :=
  if p.valid then (decide (os.setPriorityClass p.hProcess_ priority_class ≠ 0), p)
  else (false, p)

/-- `Process::get_priority_class()`: `GetPriorityClass(hProcess_)` when valid,
else `0`. -/
def get_priority_class (os : OS) (p : Process) : Nat :=
  if p.valid then os.getPriorityClass p.hProcess_ else 0

/-- `Process::suspend()`: `THREAD_ERROR_STATUS != SuspendThread(hThread_)`
when valid (validity is the process handle, the call targets the primary
thread handle). -/
def suspend (os : OS) (p : Process) : Bool × Process :=
  if p.valid then (decide (os.suspendThread p.hThread_ ≠ THREAD_ERROR_STATUS), p)
  else (false, p)

/-- `Process::resume()`: `THREAD_ERROR_STATUS != ResumeThread(hThread_)` when
valid. -/
def resume (os : OS) (p : Process) : Bool × Process :=
  if p.valid then (decide (os.resumeThread p.hThread_ ≠ THREAD_ERROR_STATUS), p)
  else (false, p)

end Process

/-- Oracle for the text-encoding bridge and process creation:
`sizeNeeded s` is `MultiByteToWideChar(CP_UTF8, 0, s, -1, NULL, 0)` and
`convert s n` is the content of an `n`-wide-character buffer after
`MultiByteToWideChar(CP_UTF8, 0, s, -1, buf, n)`; `createProcessW` is the
`CreateProcessW` call of the `std::wstring` factory, fed the three optional
strings after the empty-to-null mapping. -/
structure WinConv where
  sizeNeeded : List Nat → Int
  convert : List Nat → Nat → List Nat
  createProcessW : Option (List Nat) → Option (List Nat) → Option (List Nat) →
    Option PROCESS_INFORMATION

/-- File-static `utf8_to_wstring` of `Process.cpp`: empty in, empty out;
otherwise size the buffer with a first conversion call, convert, and pop one
trailing `L'\0'` if present. -/
def utf8_to_wstring (w : WinConv) (str : List Nat) : List Nat :=
  if str = [] then []
  else
    let size_needed : Int := w.sizeNeeded str
    if size_needed ≤ 0 then []
    else
      let result := w.convert str size_needed.toNat
      if result.getLast? = some 0 then result.dropLast else result

/-- `Process::create` (`std::wstring` overload): map empty strings to null,
call `CreateProcessW`, and build the result from the `PROCESS_INFORMATION`
on success or return an empty `Process` on failure. -/
def Process.create_w (os : OS) (w : WinConv) (an cl cd : List Nat) :
    Process × List Event :=
  let cs := if cd = [] then none else some cd
  let as_ := if an = [] then none else some an
  let ps := if cl = [] then none else some cl
  match w.createProcessW as_ ps cs with
  | some pi => Process.ctor_pi os pi
  | none => (Process.empty, [])

/-- `Process::create_utf8`: bridge the three UTF-8 strings through
`utf8_to_wstring` and delegate to the `std::wstring` factory. -/
def Process.create_utf8 (os : OS) (w : WinConv) (an cl cd : List Nat) :
    Process × List Event :=
  Process.create_w os w (utf8_to_wstring w an) (utf8_to_wstring w cl)
    (utf8_to_wstring w cd)

/-- A public mutating or OS-touching operation on one `Thread` object; the
arguments of move-assign and swap carry the other object's state. -/
inductive ThreadOp where
  | opReset
  | opReset2 (h : HANDLE) (id : Nat)
  | opJoin
  | opDetach
  | opRelease
  | opMoveAssign (src : Thread)
  | opSwap (other : Thread)
  | opWait
  | opWaitFor (d : milliseconds)
  | opTerminate (c : Nat)
  | opSuspend
  | opResume
  | opSetPriority (pr : Nat)
  | opSetAffinity (m : Nat)
  | opDtor

/-- The state transition and emitted trace of one `Thread` operation. -/
def ThreadOp.step (os : OS) (t : Thread) : ThreadOp → Thread × List Event
  | ThreadOp.opReset => t.reset
  | ThreadOp.opReset2 h id => t.reset2 os h id
  | ThreadOp.opJoin => t.join os
  | ThreadOp.opDetach => t.detach
  | ThreadOp.opRelease => (t.release.2, [])
  | ThreadOp.opMoveAssign src => ((t.move_assign src).1, (t.move_assign src).2.2)
  | ThreadOp.opSwap other => ((t.swap other).1, [])
  | ThreadOp.opWait => (t, (t.wait os).2)
  | ThreadOp.opWaitFor d => (t, (t.wait_for os d).2)
  | ThreadOp.opTerminate c => ((t.terminate os c).2, [])
  | ThreadOp.opSuspend => ((t.suspend os).2, [])
  | ThreadOp.opResume => ((t.resume os).2, [])
  | ThreadOp.opSetPriority pr => ((t.set_priority os pr).2, [])
  | ThreadOp.opSetAffinity m => ((t.set_affinity os m).2, [])
  | ThreadOp.opDtor => t.reset

/-- Run a sequence of `Thread` operations, concatenating the traces. -/
def Thread.run (os : OS) : List ThreadOp → Thread → Thread × List Event
  | [], t => (t, [])
  | op :: ops, t =>
      let r := ThreadOp.step os t op
      let r2 := Thread.run os ops r.1
      (r2.1, r.2 ++ r2.2)

/-- A public mutating or OS-touching operation on one `Process` object. -/
inductive ProcessOp where
  | opReset
  | opReset4 (ph th : HANDLE) (pid tid : Nat)
  | opAdopt4 (ph th : HANDLE) (pid tid : Nat)
  | opRelease
  | opMoveAssign (src : Process)
  | opSwap (other : Process)
  | opWait
  | opWaitFor (d : milliseconds)
  | opTerminate (c : Nat)
  | opSuspend
  | opResume
  | opSetPriorityClass (pc : Nat)
  | opCreateUtf8 (w : WinConv) (an cl cd : List Nat)
  | opDtor

/-- The state transition and emitted trace of one `Process` operation.
`opAdopt4` replaces the object by a freshly adopted one (the four-argument
constructor); `opCreateUtf8` replaces it by a factory result. -/
def ProcessOp.step (os : OS) (p : Process) : ProcessOp → Process × List Event
  | ProcessOp.opReset => p.reset
  | ProcessOp.opReset4 ph th pid tid => p.reset4 os ph th pid tid
  | ProcessOp.opAdopt4 ph th pid tid => Process.ctor4 os ph th pid tid
  | ProcessOp.opRelease => (p.release.2, [])
  | ProcessOp.opMoveAssign src => ((p.move_assign src).1, (p.move_assign src).2.2)
  | ProcessOp.opSwap other => ((p.swap other).1, [])
  | ProcessOp.opWait => (p, (p.wait os).2)
  | ProcessOp.opWaitFor d => (p, (p.wait_for os d).2)
  | ProcessOp.opTerminate c => ((p.terminate os c).2, [])
  | ProcessOp.opSuspend => ((p.suspend os).2, [])
  | ProcessOp.opResume => ((p.resume os).2, [])
  | ProcessOp.opSetPriorityClass pc => ((p.set_priority_class os pc).2, [])
  | ProcessOp.opCreateUtf8 w an cl cd => Process.create_utf8 os w an cl cd
  | ProcessOp.opDtor => p.reset

/-- Run a sequence of `Process` operations, concatenating the traces. -/
def Process.run (os : OS) : List ProcessOp → Process → Process × List Event
  | [], p => (p, [])
  | op :: ops, p =>
      let r := ProcessOp.step os p op
      let r2 := Process.run os ops r.1
      (r2.1, r.2 ++ r2.2)

/-- The both-valid-with-both-ids-known or both-cleared shape of a `Process`
(the invariant of spec §3). -/
def Process.invariant (p : Process) : Prop :=
  (p.hProcess_ ≠ HANDLE.nullptr ∧ p.hThread_ ≠ HANDLE.nullptr ∧
    p.pid_ ≠ 0 ∧ p.tid_ ≠ 0) ∨
  (p.hProcess_ = HANDLE.nullptr ∧ p.hThread_ = HANDLE.nullptr ∧
    p.pid_ = 0 ∧ p.tid_ = 0)

instance (p : Process) : Decidable p.invariant := by
  unfold Process.invariant
  infer_instance

/-- A concrete operating-system oracle used for witnesses and
counterexamples. -/
def osc : OS where
  getThreadId := fun _ => 6
  getProcessId := fun _ => 7
  getExitCodeThread := fun _ => some 0
  getExitCodeProcess := fun _ => some 0
  waitForSingleObject := fun _ _ => 0
  terminateThread := fun _ _ => 1
  terminateProcess := fun _ _ => 1
  suspendThread := fun _ => 0
  resumeThread := fun _ => 1
  setThreadPriority := fun _ _ => 1
  getThreadPriority := fun _ => 2
  setThreadAffinityMask := fun _ _ => 3
  setPriorityClass := fun _ _ => 1
  getPriorityClass := fun _ => 32

/-- A concrete valid `Thread` fixture. -/
def tc : Thread := ⟨HANDLE.ptr 1, 5⟩

/-- A concrete valid `Process` fixture. -/
def pc : Process := ⟨HANDLE.ptr 2, HANDLE.ptr 3, 7, 6⟩

/-- A concrete conversion oracle: `sizeNeeded` counts the characters plus the
terminator and `convert` null-terminates its output, as `MultiByteToWideChar`
does for a `-1`-length input. -/
def wc : WinConv where
  sizeNeeded := fun s => (s.length : Int) + 1
  convert := fun s n => s.take (n - 1) ++ [0]
  createProcessW := fun _ _ _ =>
    some ⟨HANDLE.ptr 8, HANDLE.ptr 9, 7, 6⟩

/-- `Process::handle()`: the raw process handle. -/
def Process.handle (p : Process) : HANDLE := p.hProcess_

/-- `Process::thread_handle()`: the raw primary-thread handle. -/
def Process.thread_handle (p : Process) : HANDLE := p.hThread_

/-- `Process::pid()`: the cached process id. -/
def Process.pid (p : Process) : Nat := p.pid_

/-- `Process::tid()`: the cached primary-thread id. -/
def Process.tid (p : Process) : Nat := p.tid_

/-- A concrete oracle whose `GetProcessId` fails (returns `0`), for
exercising the adoption-rollback path. -/
def osz : OS := { osc with getProcessId := fun _ => 0 }

/-- C6: for every `Thread` in any state, `detach()` is observably equal to
`reset()` — same resulting state and same emitted close events — and leaves
the object in the empty, invalid state. -/
theorem detach_equals_reset :
    ∀ t : Thread, t.detach = t.reset ∧ t.detach.1 = Thread.empty ∧
      t.detach.1.valid = false :=
  fun _ => ⟨rfl, rfl, rfl⟩

/-- C8: calling `reset()` twice in a row is idempotent for `Thread` and
`Process`: the first call leaves the empty state, and the second call keeps
that state and emits no close event at all (no double-close). -/
theorem reset_twice_idempotent :
    (∀ t : Thread, (Thread.reset t).1 = Thread.empty ∧
      Thread.reset (Thread.reset t).1 = ((Thread.reset t).1, [])) ∧
    (∀ p : Process, (Process.reset p).1 = Process.empty ∧
      Process.reset (Process.reset p).1 = ((Process.reset p).1, [])) :=
  ⟨fun _ => ⟨rfl, rfl⟩, fun _ => ⟨rfl, rfl⟩⟩

/-- C5 counterexample: the claim requires every control operation on a
default-constructed object to return its documented failure value from the
list `false / 0 / no value / wait_status::failed`; but
`Process::is_running()` on the default-constructed `Process` returns `true`,
not `false`. -/
theorem default_process_is_running_cex :
    Process.empty.valid = false ∧ Process.is_running osc Process.empty ≠ false := by
  decide

/-- C5 (amended): for default-constructed `Thread` and `Process`, `valid()`
is false, the accessors report the sentinels (null handles, id `0`), and
every control operation returns its documented failure value without
changing the object's state — except `Process::is_running()`, which returns
`true` on an invalid object (as its header documents, being defined as
`!try_exit_code().has_value()`). -/
theorem default_constructed_ops :
    Thread.empty.valid = false ∧
    Thread.empty.joinable = false ∧
    Thread.empty.handle = HANDLE.nullptr ∧
    Thread.empty.get_id = 0 ∧
    Process.empty.valid = false ∧
    Process.empty.handle = HANDLE.nullptr ∧
    Process.empty.thread_handle = HANDLE.nullptr ∧
    Process.empty.pid = 0 ∧
    Process.empty.tid = 0 ∧
    (∀ os : OS, Thread.wait os Thread.empty = (wait_status.failed, [])) ∧
    (∀ (os : OS) (d : milliseconds),
      Thread.wait_for os Thread.empty d = (wait_status.failed, [])) ∧
    (∀ (os : OS) (c : Nat), Thread.terminate os Thread.empty c = (false, Thread.empty)) ∧
    (∀ os : OS, Thread.suspend os Thread.empty = (false, Thread.empty)) ∧
    (∀ os : OS, Thread.resume os Thread.empty = (false, Thread.empty)) ∧
    (∀ (os : OS) (pr : Nat),
      Thread.set_priority os Thread.empty pr = (false, Thread.empty)) ∧
    (∀ os : OS, Thread.get_priority os Thread.empty = 0) ∧
    (∀ (os : OS) (m : Nat), Thread.set_affinity os Thread.empty m = (0, Thread.empty)) ∧
    (∀ os : OS, Thread.is_running os Thread.empty = false) ∧
    (∀ os : OS, Thread.try_exit_code os Thread.empty = none) ∧
    (∀ os : OS, Process.wait os Process.empty = (wait_status.failed, [])) ∧
    (∀ (os : OS) (d : milliseconds),
      Process.wait_for os Process.empty d = (wait_status.failed, [])) ∧
    (∀ (os : OS) (c : Nat),
      Process.terminate os Process.empty c = (false, Process.empty)) ∧
    (∀ os : OS, Process.suspend os Process.empty = (false, Process.empty)) ∧
    (∀ os : OS, Process.resume os Process.empty = (false, Process.empty)) ∧
    (∀ (os : OS) (k : Nat),
      Process.set_priority_class os Process.empty k = (false, Process.empty)) ∧
    (∀ os : OS, Process.get_priority_class os Process.empty = 0) ∧
    (∀ os : OS, Process.try_exit_code os Process.empty = none) ∧
    (∀ os : OS, Process.is_running os Process.empty = true) :=
  ⟨rfl, rfl, rfl, rfl, rfl, rfl, rfl, rfl, rfl,
   fun _ => rfl, fun _ _ => rfl, fun _ _ => rfl, fun _ => rfl, fun _ => rfl,
   fun _ _ => rfl, fun _ => rfl, fun _ _ => rfl, fun _ => rfl, fun _ => rfl,
   fun _ => rfl, fun _ _ => rfl, fun _ _ => rfl, fun _ => rfl, fun _ => rfl,
   fun _ _ => rfl, fun _ => rfl, fun _ => rfl, fun _ => rfl⟩

/-- C2 counterexample: the claim says `is_running()` on an invalid
(default-constructed) object returns `false` for both wrappers, but
`Process::is_running()` — being `!try_exit_code().has_value()` — returns
`true` on the default-constructed, invalid `Process`. -/
theorem is_running_invalid_process_cex :
    Process.is_running osc Process.empty = true ∧ Process.empty.valid = false := by
  decide

/-- C2 (amended): `Thread::is_running()` is true iff the handle is valid and
the exit-code probe reports the `STILL_ACTIVE` sentinel; but
`Process::is_running()` is true iff `try_exit_code()` has no value — i.e.
iff the object is invalid, the probe fails, or the probe reports
`STILL_ACTIVE` — so on an invalid `Process` it returns `true`, not
`false`. -/
theorem is_running_characterization :
    (∀ (os : OS) (t : Thread),
      Thread.is_running os t = true ↔
        (t.valid = true ∧ os.getExitCodeThread t.hThread_ = some STILL_ACTIVE)) ∧
    (∀ os : OS, Thread.is_running os Thread.empty = false) ∧
    (∀ (os : OS) (p : Process),
      Process.is_running os p = true ↔
        (p.valid = false ∨ os.getExitCodeProcess p.hProcess_ = none ∨
          os.getExitCodeProcess p.hProcess_ = some STILL_ACTIVE)) ∧
    (∀ os : OS, Process.is_running os Process.empty = true) := by
  refine ⟨fun os t => ?_, fun _ => rfl, fun os p => ?_, fun _ => rfl⟩
  · by_cases hv : t.valid = true
    · rcases hx : os.getExitCodeThread t.hThread_ with _ | e
      · simp [Thread.is_running, hv, hx]
      · simp [Thread.is_running, hv, hx]
    · rw [Bool.not_eq_true] at hv
      simp [Thread.is_running, hv]
  · by_cases hv : p.valid = true
    · rcases hx : os.getExitCodeProcess p.hProcess_ with _ | e
      · simp [Process.is_running, Process.try_exit_code, hv, hx]
      · by_cases he : e = STILL_ACTIVE
        · simp [Process.is_running, Process.try_exit_code, hv, hx, he]
        · simp [Process.is_running, Process.try_exit_code, hv, hx, he]
    · rw [Bool.not_eq_true] at hv
      simp [Process.is_running, Process.try_exit_code, hv]

/-- C4: for both wrappers, `try_exit_code()` returns the reported exit value
exactly when the object is valid, the probe call succeeds and the value is
not the `STILL_ACTIVE` (259) sentinel; it returns no value when the object
is invalid, when the probe fails, or when the reported code equals
`STILL_ACTIVE` — the real-exit-code-259 case is indistinguishable from
"still running". -/
theorem try_exit_code_spec :
    (∀ (os : OS) (t : Thread) (c : Nat),
      Thread.try_exit_code os t = some c ↔
        (t.valid = true ∧ os.getExitCodeThread t.hThread_ = some c ∧
          c ≠ STILL_ACTIVE)) ∧
    (∀ (os : OS) (t : Thread), t.valid = false → Thread.try_exit_code os t = none) ∧
    (∀ (os : OS) (t : Thread), os.getExitCodeThread t.hThread_ = some STILL_ACTIVE →
      Thread.try_exit_code os t = none) ∧
    (∀ (os : OS) (t : Thread), os.getExitCodeThread t.hThread_ = none →
      Thread.try_exit_code os t = none) ∧
    (∀ (os : OS) (p : Process) (c : Nat),
      Process.try_exit_code os p = some c ↔
        (p.valid = true ∧ os.getExitCodeProcess p.hProcess_ = some c ∧
          c ≠ STILL_ACTIVE)) ∧
    (∀ (os : OS) (p : Process), p.valid = false → Process.try_exit_code os p = none) ∧
    (∀ (os : OS) (p : Process), os.getExitCodeProcess p.hProcess_ = some STILL_ACTIVE →
      Process.try_exit_code os p = none) ∧
    (∀ (os : OS) (p : Process), os.getExitCodeProcess p.hProcess_ = none →
      Process.try_exit_code os p = none) := by
  refine ⟨fun os t c => ?_, fun os t hv => ?_, fun os t hx => ?_, fun os t hx => ?_,
    fun os p c => ?_, fun os p hv => ?_, fun os p hx => ?_, fun os p hx => ?_⟩
  · by_cases hv : t.valid = true
    · rcases hx : os.getExitCodeThread t.hThread_ with _ | e
      · simp [Thread.try_exit_code, hv, hx]
      · by_cases he : e = STILL_ACTIVE
        · simp [Thread.try_exit_code, hv, hx, he]
          exact fun h => h.symm
        · simp [Thread.try_exit_code, hv, hx, he]
          exact fun h => (h ▸ he : c ≠ STILL_ACTIVE)
    · rw [Bool.not_eq_true] at hv
      simp [Thread.try_exit_code, hv]
  · simp [Thread.try_exit_code, hv]
  · by_cases hv : t.valid = true
    · simp [Thread.try_exit_code, hv, hx]
    · rw [Bool.not_eq_true] at hv
      simp [Thread.try_exit_code, hv]
  · by_cases hv : t.valid = true
    · simp [Thread.try_exit_code, hv, hx]
    · rw [Bool.not_eq_true] at hv
      simp [Thread.try_exit_code, hv]
  · by_cases hv : p.valid = true
    · rcases hx : os.getExitCodeProcess p.hProcess_ with _ | e
      · simp [Process.try_exit_code, hv, hx]
      · by_cases he : e = STILL_ACTIVE
        · simp [Process.try_exit_code, hv, hx, he]
          exact fun h => h.symm
        · simp [Process.try_exit_code, hv, hx, he]
          exact fun h => (h ▸ he : c ≠ STILL_ACTIVE)
    · rw [Bool.not_eq_true] at hv
      simp [Process.try_exit_code, hv]
  · simp [Process.try_exit_code, hv]
  · by_cases hv : p.valid = true
    · simp [Process.try_exit_code, hv, hx]
    · rw [Bool.not_eq_true] at hv
      simp [Process.try_exit_code, hv]
  · by_cases hv : p.valid = true
    · simp [Process.try_exit_code, hv, hx]
    · rw [Bool.not_eq_true] at hv
      simp [Process.try_exit_code, hv]

/-- C4 witness: the characterization applied at the concrete oracle `osc`
(which reports exit code `0`), at the valid fixtures and at the
default-constructed objects. -/
theorem try_exit_code_spec_witness :
    Thread.try_exit_code osc Thread.empty = none ∧
    Process.try_exit_code osc Process.empty = none ∧
    Thread.try_exit_code osc tc = some 0 ∧
    Process.try_exit_code osc pc = some 0 := by
  have h := try_exit_code_spec
  exact ⟨h.2.1 osc Thread.empty rfl,
    h.2.2.2.2.2.1 osc Process.empty rfl,
    (h.1 osc tc 0).mpr ⟨rfl, rfl, by decide⟩,
    (h.2.2.2.2.1 osc pc 0).mpr ⟨rfl, rfl, by decide⟩⟩

/-- C1 counterexample: `Process::wait_for` truncates the count to `DWORD`
before clamping, so the duration `2^32` ms — whose count is at or above
`INFINITE` — is passed to the wait as `0`, not as `INFINITE - 1`; and
`Thread::wait_for` passes the caller-supplied duration `-1` ms straight
through the `DWORD` cast as the infinite sentinel `INFINITE` itself. -/
theorem wait_for_clamp_cex :
    (INFINITE : Int) ≤ (4294967296 : Int) ∧
    waited_ms (Process.wait_for osc pc ⟨4294967296⟩).2 = some 0 ∧
    (0 : Nat) ≠ INFINITE - 1 ∧
    waited_ms (Thread.wait_for osc tc ⟨-1⟩).2 = some INFINITE := by
  decide

/-- C1 (amended): for every valid `Thread`, `wait_for` passes `INFINITE - 1`
for every duration whose count is at or above `INFINITE`, and never passes
the `INFINITE` sentinel for a nonnegative duration (a negative count
congruent to `-1` mod `2^32` is passed as `INFINITE`); for every valid
`Process`, `wait_for` passes `min(count mod 2^32, INFINITE - 1)` — the
32-bit truncation of the count clamped away from the sentinel — so a count
at or above `2^32` is not passed as `INFINITE - 1` in general, but the
`INFINITE` sentinel itself is never passed. -/
theorem wait_for_clamp_amended :
    ∀ (os : OS) (t : Thread) (p : Process) (d e : milliseconds),
      t.valid = true → p.valid = true →
      (((INFINITE : Int) ≤ d.count →
        waited_ms (Thread.wait_for os t d).2 = some (INFINITE - 1)) ∧
       (0 ≤ d.count → waited_ms (Thread.wait_for os t d).2 ≠ some INFINITE) ∧
       waited_ms (Process.wait_for os p e).2 =
         some (min (toDWORD e.count) Process.MAX_WAIT_TIMEOUT) ∧
       waited_ms (Process.wait_for os p e).2 ≠ some INFINITE) := by
  intro os t p d e hv hp
  have ht : (Thread.wait_for os t d).2 = [Event.waitForSingleObject t.hThread_
      (if (INFINITE : Int) ≤ d.count then INFINITE - 1 else toDWORD d.count)] := by
    unfold Thread.wait_for
    rw [hv]
    simp
  have hpp : (Process.wait_for os p e).2 = [Event.waitForSingleObject p.hProcess_
      (if Process.MAX_WAIT_TIMEOUT < toDWORD e.count then Process.MAX_WAIT_TIMEOUT
       else toDWORD e.count)] := by
    unfold Process.wait_for
    rw [hp]
    simp
  have hc : ((INFINITE : Nat) : Int) = 4294967295 := by norm_num [INFINITE]
  refine ⟨fun hi => ?_, fun h0 => ?_, ?_, ?_⟩
  · rw [ht, if_pos hi]
    rfl
  · rw [ht]
    by_cases hi : (INFINITE : Int) ≤ d.count
    · rw [if_pos hi]
      simp [waited_ms, INFINITE]
    · rw [if_neg hi]
      push_neg at hi
      have hm : d.count % 4294967296 = d.count := by
        refine Int.emod_eq_of_lt h0 ?_
        omega
      simp only [waited_ms, toDWORD, hm, Ne, Option.some.injEq, INFINITE]
      omega
  · rw [hpp]
    by_cases hx : Process.MAX_WAIT_TIMEOUT < toDWORD e.count
    · rw [if_pos hx, Nat.min_eq_right hx.le]
      rfl
    · rw [if_neg hx, Nat.min_eq_left (Nat.not_lt.mp hx)]
      rfl
  · rw [hpp]
    by_cases hx : Process.MAX_WAIT_TIMEOUT < toDWORD e.count
    · rw [if_pos hx]
      simp [waited_ms, Process.MAX_WAIT_TIMEOUT, INFINITE]
    · rw [if_neg hx]
      simp only [waited_ms, Ne, Option.some.injEq]
      simp only [Process.MAX_WAIT_TIMEOUT, INFINITE] at hx ⊢
      omega

/-- C1 witness: the amended clamp behaviour applied at concrete valid
fixtures, a `Thread` duration of exactly `INFINITE` ms and a `Process`
duration of `2^32` ms. -/
theorem wait_for_clamp_amended_witness :
    waited_ms (Thread.wait_for osc tc ⟨4294967295⟩).2 = some (INFINITE - 1) ∧
    waited_ms (Thread.wait_for osc tc ⟨4294967295⟩).2 ≠ some INFINITE ∧
    waited_ms (Process.wait_for osc pc ⟨4294967296⟩).2 =
      some (min (toDWORD 4294967296) Process.MAX_WAIT_TIMEOUT) ∧
    waited_ms (Process.wait_for osc pc ⟨4294967296⟩).2 ≠ some INFINITE := by
  have h := wait_for_clamp_amended osc tc pc ⟨4294967295⟩ ⟨4294967296⟩ rfl rfl
  exact ⟨h.1 (by norm_num [INFINITE]), h.2.1 (by norm_num), h.2.2.1, h.2.2.2⟩

/-- C7: the encoding bridge of `Process::create_utf8` returns an empty native
string for an empty UTF-8 input; for a non-empty input it sizes the buffer
with a first `MultiByteToWideChar` call and converts with exactly that
length; it strips the single trailing terminator the conversion introduces,
so when the conversion null-terminates its output the bridged string is the
terminator-free body; and `create_utf8` feeds exactly the bridged strings to
the native factory. -/
theorem utf8_bridge_spec :
    (∀ w : WinConv, utf8_to_wstring w [] = []) ∧
    (∀ (w : WinConv) (s : List Nat), s ≠ [] → 0 < w.sizeNeeded s →
      utf8_to_wstring w s =
        (if (w.convert s (w.sizeNeeded s).toNat).getLast? = some 0
         then (w.convert s (w.sizeNeeded s).toNat).dropLast
         else w.convert s (w.sizeNeeded s).toNat)) ∧
    (∀ (w : WinConv) (s body : List Nat), s ≠ [] → 0 < w.sizeNeeded s →
      w.convert s (w.sizeNeeded s).toNat = body ++ [0] →
      utf8_to_wstring w s = body) ∧
    (∀ (w : WinConv) (s body : List Nat), s ≠ [] → 0 < w.sizeNeeded s →
      w.convert s (w.sizeNeeded s).toNat = body ++ [0] → (∀ c ∈ body, c ≠ 0) →
      ∀ c ∈ utf8_to_wstring w s, c ≠ 0) ∧
    (∀ (os : OS) (w : WinConv) (an cl cd : List Nat),
      Process.create_utf8 os w an cl cd =
        Process.create_w os w (utf8_to_wstring w an) (utf8_to_wstring w cl)
          (utf8_to_wstring w cd)) := by
  have step : ∀ (w : WinConv) (s body : List Nat), s ≠ [] → 0 < w.sizeNeeded s →
      w.convert s (w.sizeNeeded s).toNat = body ++ [0] →
      utf8_to_wstring w s = body := by
    intro w s body hs hn hconv
    simp only [utf8_to_wstring, if_neg hs, if_neg (not_le.mpr hn), hconv,
      List.getLast?_concat, List.dropLast_concat]
    simp
  refine ⟨fun _ => rfl, fun w s hs hn => ?_, step, fun w s body hs hn hconv hbody => ?_,
    fun _ _ _ _ _ => rfl⟩
  · simp only [utf8_to_wstring, if_neg hs, if_neg (not_le.mpr hn)]
  · rw [step w s body hs hn hconv]
    exact hbody

/-- C7 witness: the bridge applied to the one-character string `"A"` under
the concrete conversion oracle `wc`, whose `convert` null-terminates: the
terminator is stripped and no terminator remains. -/
theorem utf8_bridge_spec_witness :
    utf8_to_wstring wc [65] = [65] ∧ (∀ c ∈ utf8_to_wstring wc [65], c ≠ 0) := by
  have h := utf8_bridge_spec
  exact ⟨h.2.2.1 wc [65] [65] (by decide) (by decide) (by decide),
    h.2.2.2.1 wc [65] [65] (by decide) (by decide) (by decide) (by decide)⟩

/-- C9: every successful `Process` adoption (the four-argument constructor,
the `PROCESS_INFORMATION` constructor, the four-argument `reset`) stores the
pid and tid re-resolved from the OS through the two handles, for all
caller-supplied pid/tid arguments; `Thread` adoption instead keeps a
caller-supplied non-zero id unchanged, for every oracle, without
re-resolving it. -/
theorem adoption_resolves_ids :
    (∀ (os : OS) (ph th : HANDLE) (pid tid : Nat),
      ph ≠ HANDLE.nullptr → th ≠ HANDLE.nullptr →
      os.getProcessId ph ≠ 0 → os.getThreadId th ≠ 0 →
      (Process.ctor4 os ph th pid tid).1 =
        ⟨ph, th, os.getProcessId ph, os.getThreadId th⟩) ∧
    (∀ (os : OS) (pinf : PROCESS_INFORMATION),
      pinf.hProcess ≠ HANDLE.nullptr → pinf.hThread ≠ HANDLE.nullptr →
      os.getProcessId pinf.hProcess ≠ 0 → os.getThreadId pinf.hThread ≠ 0 →
      (Process.ctor_pi os pinf).1 =
        ⟨pinf.hProcess, pinf.hThread, os.getProcessId pinf.hProcess,
          os.getThreadId pinf.hThread⟩) ∧
    (∀ (os : OS) (p : Process) (ph th : HANDLE) (pid tid : Nat),
      ph ≠ HANDLE.nullptr → th ≠ HANDLE.nullptr →
      os.getProcessId ph ≠ 0 → os.getThreadId th ≠ 0 →
      (Process.reset4 os p ph th pid tid).1 =
        ⟨ph, th, os.getProcessId ph, os.getThreadId th⟩) ∧
    (∀ (os : OS) (t : Thread) (h : HANDLE) (id : Nat),
      is_valid_handle h = true → id ≠ 0 →
      (Thread.reset2 os t h id).1 = ⟨h, id⟩) := by
  have key : ∀ (os : OS) (ph th : HANDLE) (pid tid : Nat),
      ph ≠ HANDLE.nullptr → th ≠ HANDLE.nullptr →
      os.getProcessId ph ≠ 0 → os.getThreadId th ≠ 0 →
      (Process.initialize_ os ⟨ph, th, pid, tid⟩).1 =
        ⟨ph, th, os.getProcessId ph, os.getThreadId th⟩ := by
    intro os ph th pid tid hph hth hgp hgt
    simp [Process.initialize_, Process.INVALID_ID, hph, hth, hgp, hgt]
  refine ⟨fun os ph th pid tid hph hth hgp hgt => key os ph th pid tid hph hth hgp hgt,
    fun os pinf hph hth hgp hgt => key os _ _ _ _ hph hth hgp hgt,
    fun os p ph th pid tid hph hth hgp hgt => key os ph th pid tid hph hth hgp hgt,
    fun os t h id hvh hid => ?_⟩
  simp [Thread.reset2, Thread.initialize_, hvh, hid]

/-- C9 witness: adopting handles with deliberately wrong caller-supplied ids
(`99`/`98`) under the oracle `osc` (which resolves `7`/`6`) stores the
resolved ids; `Thread` adoption with caller id `42` keeps `42`. -/
theorem adoption_resolves_ids_witness :
    (Process.ctor4 osc (HANDLE.ptr 2) (HANDLE.ptr 3) 99 98).1 =
      ⟨HANDLE.ptr 2, HANDLE.ptr 3, osc.getProcessId (HANDLE.ptr 2),
        osc.getThreadId (HANDLE.ptr 3)⟩ ∧
    (Thread.reset2 osc Thread.empty (HANDLE.ptr 1) 42).1 = ⟨HANDLE.ptr 1, 42⟩ := by
  have h := adoption_resolves_ids
  exact ⟨h.1 osc (HANDLE.ptr 2) (HANDLE.ptr 3) 99 98 (by decide) (by decide)
      (by decide) (by decide),
    h.2.2.2 osc Thread.empty (HANDLE.ptr 1) 42 (by decide) (by decide)⟩

/-- A trace of the guarded close helper only ever closes valid handles. -/
theorem closes_ok_close (h : HANDLE) : closes_ok (close_handle_ h) = true := by
  unfold close_handle_
  split
  · next hv => simp [closes_ok, hv]
  · rfl

/-- `closes_ok` distributes over concatenation. -/
theorem closes_ok_append (a b : List Event) :
    closes_ok (a ++ b) = (closes_ok a && closes_ok b) := by
  simp [closes_ok]

/-- A leading wait event does not affect `closes_ok`. -/
theorem closes_ok_wait (h : HANDLE) (ms : Nat) (l : List Event) :
    closes_ok (Event.waitForSingleObject h ms :: l) = closes_ok l := by
  simp [closes_ok]

/-- `Thread::initialize_` closes only valid handles. -/
theorem thread_init_closes (os : OS) (q : Thread) :
    closes_ok (Thread.initialize_ os q).2 = true := by
  by_cases hv : is_valid_handle q.hThread_ = true
  · by_cases h0 : q.tid_ = 0
    · by_cases hg : os.getThreadId q.hThread_ = 0
      · simp [Thread.initialize_, hv, h0, hg, Thread.reset, closes_ok_close]
      · simp [Thread.initialize_, hv, h0, hg, closes_ok]
    · simp [Thread.initialize_, hv, h0, Thread.reset, closes_ok_close, closes_ok]
  · simp [Thread.initialize_, hv, closes_ok]

/-- `Process::initialize_` closes only valid handles. -/
theorem process_init_closes (os : OS) (q : Process) :
    closes_ok (Process.initialize_ os q).2 = true := by
  have hr : ∀ r : Process, closes_ok r.reset.2 = true := by
    intro r
    show closes_ok (close_handle_ r.hThread_ ++ close_handle_ r.hProcess_) = true
    rw [closes_ok_append, closes_ok_close, closes_ok_close]
    rfl
  by_cases hb : q.hProcess_ ≠ HANDLE.nullptr ∧ q.hThread_ ≠ HANDLE.nullptr
  · by_cases h1 : os.getProcessId q.hProcess_ = 0
    · simp [Process.initialize_, Process.INVALID_ID, hb, h1, hr, Process.reset,
        closes_ok_append, closes_ok_close]
    · by_cases h2 : os.getThreadId q.hThread_ = 0
      · simp [Process.initialize_, Process.INVALID_ID, hb, h1, h2, hr, Process.reset,
          closes_ok_append, closes_ok_close]
      · simp [Process.initialize_, Process.INVALID_ID, hb, h1, h2, closes_ok]
  · simp [Process.initialize_, hb, hr, Process.reset, closes_ok_append, closes_ok_close]

/-- Every single `Thread` operation closes only valid handles. -/
theorem threadOp_closes (os : OS) (t : Thread) (op : ThreadOp) :
    closes_ok (ThreadOp.step os t op).2 = true := by
  cases op with
  | opReset => exact closes_ok_close _
  | opReset2 h id =>
      show closes_ok (close_handle_ t.hThread_ ++
        (Thread.initialize_ os ⟨h, id⟩).2) = true
      rw [closes_ok_append, closes_ok_close, thread_init_closes]
      rfl
  | opJoin =>
      show closes_ok (Thread.join os t).2 = true
      unfold Thread.join
      split
      · show closes_ok (Event.waitForSingleObject t.hThread_ INFINITE ::
          close_handle_ t.hThread_) = true
        rw [closes_ok_wait]
        exact closes_ok_close _
      · rfl
  | opDetach => exact closes_ok_close _
  | opRelease => rfl
  | opMoveAssign src => exact closes_ok_close _
  | opSwap other => rfl
  | opWait =>
      show closes_ok (t, (Thread.wait os t).2).2 = true
      unfold Thread.wait
      split <;> rfl
  | opWaitFor d =>
      show closes_ok (t, (Thread.wait_for os t d).2).2 = true
      unfold Thread.wait_for
      split <;> rfl
  | opTerminate c => rfl
  | opSuspend => rfl
  | opResume => rfl
  | opSetPriority pr => rfl
  | opSetAffinity m => rfl
  | opDtor => exact closes_ok_close _

/-- Every single `Process` operation closes only valid handles. -/
theorem processOp_closes (os : OS) (p : Process) (op : ProcessOp) :
    closes_ok (ProcessOp.step os p op).2 = true := by
  have hr : ∀ r : Process, closes_ok r.reset.2 = true := by
    intro r
    show closes_ok (close_handle_ r.hThread_ ++ close_handle_ r.hProcess_) = true
    rw [closes_ok_append, closes_ok_close, closes_ok_close]
    rfl
  cases op with
  | opReset => exact hr p
  | opReset4 ph th pid tid =>
      show closes_ok (p.reset.2 ++
        (Process.initialize_ os ⟨ph, th, pid, tid⟩).2) = true
      rw [closes_ok_append, hr p, process_init_closes]
      rfl
  | opAdopt4 ph th pid tid => exact process_init_closes os _
  | opRelease => rfl
  | opMoveAssign src => exact hr p
  | opSwap other => rfl
  | opWait =>
      show closes_ok (p, (Process.wait os p).2).2 = true
      unfold Process.wait
      split <;> rfl
  | opWaitFor d =>
      show closes_ok (p, (Process.wait_for os p d).2).2 = true
      unfold Process.wait_for
      split <;> rfl
  | opTerminate c => rfl
  | opSuspend => rfl
  | opResume => rfl
  | opSetPriorityClass pc => rfl
  | opCreateUtf8 w an cl cd =>
      show closes_ok (Process.create_w os w (utf8_to_wstring w an)
        (utf8_to_wstring w cl) (utf8_to_wstring w cd)).2 = true
      unfold Process.create_w
      rcases hm : w.createProcessW
          (if utf8_to_wstring w an = [] then none else some (utf8_to_wstring w an))
          (if utf8_to_wstring w cl = [] then none else some (utf8_to_wstring w cl))
          (if utf8_to_wstring w cd = [] then none else some (utf8_to_wstring w cd))
        with _ | pinf
      · simp [hm, closes_ok]
      · simp only [hm]
        exact process_init_closes os _
  | opDtor => exact hr p

/-- C10: in every execution of every sequence of `Thread` or `Process`
operations, from any starting state, the platform handle-close routine is
invoked only on handles satisfying `is_valid_handle` — never on a null or
`INVALID_HANDLE_VALUE` handle. -/
theorem close_only_valid_handles :
    (∀ (os : OS) (ops : List ThreadOp) (t : Thread),
      closes_ok (Thread.run os ops t).2 = true) ∧
    (∀ (os : OS) (ops : List ProcessOp) (p : Process),
      closes_ok (Process.run os ops p).2 = true) := by
  constructor
  · intro os ops
    induction ops with
    | nil => intro t; rfl
    | cons op ops ih =>
        intro t
        show closes_ok ((ThreadOp.step os t op).2 ++
          (Thread.run os ops (ThreadOp.step os t op).1).2) = true
        rw [closes_ok_append, threadOp_closes, ih]
        rfl
  · intro os ops
    induction ops with
    | nil => intro p; rfl
    | cons op ops ih =>
        intro p
        show closes_ok ((ProcessOp.step os p op).2 ++
          (Process.run os ops (ProcessOp.step os p op).1).2) = true
        rw [closes_ok_append, processOp_closes, ih]
        rfl

/-- C3: every `Process` reachable through the public interface is either
both-valid-with-both-ids-known (both handles held, pid and tid non-zero) or
both-cleared (both handles null, both ids zero): the default constructor,
both adopting constructors, `reset` in both forms and `release` establish
the invariant unconditionally for every oracle and all arguments;
move-construction, move-assignment and `swap` preserve it; and
id-resolution failure during adoption rolls back through `reset()`, closing
the handles (guarded) and clearing all four fields. -/
theorem process_state_invariant :
    Process.invariant Process.empty ∧
    (∀ (os : OS) (ph th : HANDLE) (pid tid : Nat),
      Process.invariant (Process.ctor4 os ph th pid tid).1) ∧
    (∀ (os : OS) (pinf : PROCESS_INFORMATION),
      Process.invariant (Process.ctor_pi os pinf).1) ∧
    (∀ p : Process, Process.invariant (Process.reset p).1) ∧
    (∀ (os : OS) (p : Process) (ph th : HANDLE) (pid tid : Nat),
      Process.invariant (Process.reset4 os p ph th pid tid).1) ∧
    (∀ p : Process, Process.invariant p.release.2) ∧
    (∀ other : Process, Process.invariant other →
      Process.invariant (Process.move_ctor other).1 ∧
      Process.invariant (Process.move_ctor other).2) ∧
    (∀ p other : Process, Process.invariant other →
      Process.invariant (p.move_assign other).1 ∧
      Process.invariant (p.move_assign other).2.1) ∧
    (∀ p other : Process, Process.invariant p → Process.invariant other →
      Process.invariant (p.swap other).1 ∧ Process.invariant (p.swap other).2) ∧
    (∀ (os : OS) (ph th : HANDLE) (pid tid : Nat),
      ph ≠ HANDLE.nullptr → th ≠ HANDLE.nullptr →
      (os.getProcessId ph = 0 ∨ os.getThreadId th = 0) →
      (Process.ctor4 os ph th pid tid).1 = Process.empty ∧
      (Process.ctor4 os ph th pid tid).2 =
        close_handle_ th ++ close_handle_ ph) := by
  have hempty : Process.invariant Process.empty := Or.inr ⟨rfl, rfl, rfl, rfl⟩
  have inv_init : ∀ (os : OS) (q : Process),
      Process.invariant (Process.initialize_ os q).1 := by
    intro os q
    by_cases hb : q.hProcess_ ≠ HANDLE.nullptr ∧ q.hThread_ ≠ HANDLE.nullptr
    · by_cases h1 : os.getProcessId q.hProcess_ = 0
      · simp [Process.initialize_, Process.INVALID_ID, hb, h1, Process.reset,
          Process.set_zero_]
        exact hempty
      · by_cases h2 : os.getThreadId q.hThread_ = 0
        · simp [Process.initialize_, Process.INVALID_ID, hb, h1, h2, Process.reset,
            Process.set_zero_]
          exact hempty
        · simp [Process.initialize_, Process.INVALID_ID, hb, h1, h2]
          exact Or.inl ⟨hb.1, hb.2, h1, h2⟩
    · simp [Process.initialize_, hb, Process.reset, Process.set_zero_]
      exact hempty
  refine ⟨hempty, fun os ph th pid tid => inv_init os _, fun os pinf => inv_init os _,
    fun p => hempty, fun os p ph th pid tid => inv_init os _, fun p => hempty,
    fun other h => ⟨h, hempty⟩, fun p other h => ⟨h, hempty⟩,
    fun p other hp ho => ⟨ho, hp⟩, fun os ph th pid tid hph hth hres => ?_⟩
  have hcase : (Process.ctor4 os ph th pid tid) =
      (Process.empty, close_handle_ th ++ close_handle_ ph) := by
    rcases hres with h1 | h2
    · simp [Process.ctor4, Process.initialize_, Process.INVALID_ID, hph, hth, h1,
        Process.reset, Process.set_zero_, Process.empty]
    · by_cases h1 : os.getProcessId ph = 0
      · simp [Process.ctor4, Process.initialize_, Process.INVALID_ID, hph, hth, h1,
          Process.reset, Process.set_zero_, Process.empty]
      · simp [Process.ctor4, Process.initialize_, Process.INVALID_ID, hph, hth, h1,
          h2, Process.reset, Process.set_zero_, Process.empty]
  exact ⟨by rw [hcase], by rw [hcase]⟩

/-- C3 witness: the invariant-preservation clauses applied at the concrete
valid fixture `pc` and the empty object, and the rollback clause applied
under the oracle `osz`, whose pid resolution fails. -/
theorem process_state_invariant_witness :
    (Process.invariant (Process.swap pc Process.empty).1 ∧
      Process.invariant (Process.swap pc Process.empty).2) ∧
    Process.invariant (Process.move_ctor pc).1 ∧
    ((Process.ctor4 osz (HANDLE.ptr 2) (HANDLE.ptr 3) 9 9).1 = Process.empty ∧
      (Process.ctor4 osz (HANDLE.ptr 2) (HANDLE.ptr 3) 9 9).2 =
        close_handle_ (HANDLE.ptr 3) ++ close_handle_ (HANDLE.ptr 2)) := by
  have h := process_state_invariant
  exact ⟨h.2.2.2.2.2.2.2.2.1 pc Process.empty (by decide) (by decide),
    (h.2.2.2.2.2.2.1 pc (by decide)).1,
    h.2.2.2.2.2.2.2.2.2 osz (HANDLE.ptr 2) (HANDLE.ptr 3) 9 9 (by decide)
      (by decide) (Or.inl rfl)⟩
